import Mathlib

/-!
Verification development for the AgentGuard budget-enforcement core
(single-file JS library, authoritative build `dist/agent-guard.esm.js`).
Machine numbers are modelled as exact rationals; the table prices
(e.g. 0.03 per 1K tokens) are decimal literals that the source manipulates
with plain arithmetic, so ℚ reflects the intended values exactly.
-/

namespace AgentGuard

/-- Per-1000-token price entry, `{ input, output }` in the source table. -/
structure PriceEntry where
  input : ℚ
  output : ℚ
deriving DecidableEq

/-- The `API_COSTS` table from `dist/agent-guard.esm.js` lines 23-39,
including the required `"default"` fallback entry. -/
def API_COSTS : List (String × PriceEntry) :=
  [ ("gpt-4", ⟨3/100, 6/100⟩)
  , ("gpt-4-turbo", ⟨1/100, 3/100⟩)
  , ("gpt-3.5-turbo", ⟨15/10000, 2/1000⟩)
  , ("gpt-4o", ⟨25/10000, 1/100⟩)
  , ("gpt-4o-mini", ⟨15/100000, 6/10000⟩)
  , ("claude-3-opus", ⟨15/1000, 75/1000⟩)
  , ("claude-3-sonnet", ⟨3/1000, 15/1000⟩)
  , ("claude-3-haiku", ⟨25/100000, 125/100000⟩)
  , ("claude-3-5-sonnet", ⟨3/1000, 15/1000⟩)
  , ("default", ⟨1/100, 3/100⟩) ]

/-- Property access `API_COSTS[model]` on the table, as an association-list
lookup over the literal keys of the source object. -/
def findCosts (model : String) : Option PriceEntry :=
  (API_COSTS.find? (fun p => p.1 == model)).map (fun p => p.2)

/-- The expression `API_COSTS[model] || API_COSTS['default']` from
`calculateCost` (line 97).  The innermost arm is unreachable because the
table literally contains the key `"default"`. -/
def jsLookup (model : String) : PriceEntry :=
  match findCosts model with
  | some c => c
  | none =>
    match findCosts "default" with
    | some c => c
    | none => ⟨0, 0⟩

/-- `calculateCost(model, inputTokens, outputTokens)` from lines 96-101:
`(inputTokens / 1000) * costs.input + (outputTokens / 1000) * costs.output`. -/
def calculateCost (model : String) (inputTokens outputTokens : ℚ) : ℚ :=
  let costs := jsLookup model
  (inputTokens / 1000) * costs.input + (outputTokens / 1000) * costs.output

/-- The `"default"` table entry `{ input: 0.01, output: 0.03 }` (line 38),
named separately for the spec-side lookup contract. -/
def defaultEntry : PriceEntry := ⟨1/100, 3/100⟩

/-- Spec-side lookup contract (spec section 4.1): return the entry for a
recognized model identifier, and the `"default"` entry otherwise. -/
def lookupSpecEntry (model : String) : PriceEntry :=
  match findCosts model with
  | some c => c
  | none => defaultEntry

/-- The member names every plain object literal inherits from
`Object.prototype` in ECMAScript.  `API_COSTS` is a plain object literal,
so the bracket access `API_COSTS[model]` returns a truthy inherited value
for these keys instead of `undefined`. -/
def OBJECT_PROTOTYPE_KEYS : List String :=
  [ "constructor", "hasOwnProperty", "isPrototypeOf", "propertyIsEnumerable"
  , "toLocaleString", "toString", "valueOf", "__proto__"
  , "__defineGetter__", "__defineSetter__", "__lookupGetter__"
  , "__lookupSetter__" ]

/-- Result of the JavaScript property access `API_COSTS[model]` (line 97):
an own literal key of the table yields its `PriceEntry`; a member name
inherited from `Object.prototype` yields that truthy inherited
function/object (which is not a price entry); any other key yields
`undefined`. -/
inductive PropValue where
  | entry (e : PriceEntry)
  | inherited
  | missing
deriving DecidableEq

/-- The property access `API_COSTS[model]` itself: own keys shadow the
prototype chain, prototype member names come back truthy, everything else
is `undefined`. -/
def propAccess (model : String) : PropValue :=
  match findCosts model with
  | some c => .entry c
  | none =>
    if model ∈ OBJECT_PROTOTYPE_KEYS then .inherited else .missing

/-- A JavaScript number that may be `NaN`, for cost values computed from a
lookup that can miss. -/
inductive JsNum where
  | num (q : ℚ)
  | nan
deriving DecidableEq

/-- `calculateCost` (lines 96-101) with the bracket access modelled in
full.  `API_COSTS[model] || API_COSTS['default']` keeps any truthy access
result: an own entry is used directly; a truthy inherited
`Object.prototype` member is kept too, and then `costs.input` and
`costs.output` are `undefined`, so both products and their sum are `NaN`;
only a falsy (`undefined`) access falls through to `API_COSTS['default']`
(an own key of the table; the `⟨0, 0⟩` arm is unreachable). -/
def calculateCostJs (model : String) (inputTokens outputTokens : ℚ) : JsNum :=
  match propAccess model with
  | .entry costs =>
    .num ((inputTokens / 1000) * costs.input + (outputTokens / 1000) * costs.output)
  | .inherited => JsNum.nan
  | .missing =>
    let costs := match findCosts "default" with
      | some c => c
      | none => ⟨0, 0⟩
    .num ((inputTokens / 1000) * costs.input + (outputTokens / 1000) * costs.output)

/-- Whitespace test for the regex class `\s` used by `text.split(/\s+/)`
(line 123), over the whitespace characters that occur in chat text. -/
def isWs (c : Char) : Bool :=
  c = ' ' ∨ c = '\t' ∨ c = '\n' ∨ c = '\r'

/-- Number of maximal whitespace runs in a character list; the Boolean flag
records whether the previous character was whitespace. -/
def countRuns : List Char → Bool → Nat
  | [], _ => 0
  | c :: rest, prev =>
    (if isWs c ∧ ¬prev then 1 else 0) + countRuns rest (isWs c)

/-- `text.split(/\s+/).length` from line 123: splitting on maximal
whitespace runs yields one field per gap plus one, counting the empty
boundary fields JavaScript produces at a leading or trailing run. -/
def wordCount (s : List Char) : Nat :=
  countRuns s false + 1

/-- `estimateTokens(text)` from lines 103-126, on the fallback path
(tokenizer integrations unavailable, as in environments without the
`tiktoken` / `@anthropic-ai/tokenizer` packages, lines 10-20): `!text`
short-circuits to 0, otherwise `Math.ceil(words * 1.3 + chars * 0.25)`.
`none` models an undefined/absent text argument. -/
def estimateTokens : Option (List Char) → ℤ
  | none => 0
  | some s =>
    if s = [] then 0
    else ⌈(wordCount s : ℚ) * (13/10) + (s.length : ℚ) * (1/4)⌉

/-- `Math.round(x)` for the non-negative estimates the source rounds:
round half toward positive infinity. -/
def jsRound (q : ℚ) : ℤ := ⌊q + 1/2⌋

/-- A `usage` block as read by `extractTokensFromResponse` (lines 297-302):
each field is absent (`none`) or a number. -/
structure Usage where
  prompt_tokens : Option ℤ
  completion_tokens : Option ℤ
  input_tokens : Option ℤ
  output_tokens : Option ℤ
deriving DecidableEq

/-- JavaScript `a || k` over an optional numeric field: a present non-zero
value wins, an absent or zero (falsy) value falls through to `k`. -/
def orFalsy (a : Option ℤ) (k : ℤ) : ℤ :=
  match a with
  | some v => if v = 0 then k else v
  | none => k

/-- An item of an Anthropic `content` array (lines 318-327): only items
with `type === 'text'` contribute text. -/
inductive AnthropicItem where
  | text (s : List Char)
  | nonText
deriving DecidableEq

/-- An item of a multimodal `message.content` array (lines 336-350). -/
inductive MultiItem where
  | text (s : List Char)
  | imageUrl
  | audio
deriving DecidableEq

/-- Raw payloads handed to attribution, one constructor per branch of the
shape dispatch in `extractTokensFromResponse` (lines 294-372), following
the spec's tagged-union reading of the duck-typed dispatch:
usage block first, then streaming delta, Anthropic content array,
`choices[0].message` (string or multimodal), and the generic fallback.
`nonResponse` stands for observed values the interception layer skips
(non-objects, or objects with none of `choices`/`content`/`usage`, line 528).
In `genericShape`, the argument is the `JSON.stringify` result, `none`
when stringification throws (circular references), which the surrounding
`try` converts into the conservative `{ input: 50, output: 50 }`. -/
inductive RawPayload where
  | nonResponse
  | withUsage (u : Usage)
  | streamDelta (content : Option (List Char))
  | contentArray (items : List AnthropicItem)
  | messageText (content : List Char)
  | messageMulti (items : List MultiItem)
  | genericShape (stringified : Option (List Char))
deriving DecidableEq

/-- Input/output token counts produced by extraction. -/
structure TokenCounts where
  input : ℤ
  output : ℤ
deriving DecidableEq

set_option linter.unusedVariables false in
/-- `extractTokensFromResponse(response, model)` from lines 294-372 of
`dist/agent-guard.esm.js`, branch by branch.  The `model` argument only
selects a tokenizer in the source; on the fallback path modelled here it
is unused. -/
def extractTokensFromResponse (p : RawPayload) (model : String) : TokenCounts :=
  match p with
  | .nonResponse => ⟨0, 0⟩
  | .withUsage u =>
    ⟨orFalsy u.prompt_tokens (orFalsy u.input_tokens 0),
     orFalsy u.completion_tokens (orFalsy u.output_tokens 0)⟩
  | .streamDelta content =>
    ⟨0, estimateTokens (some (content.getD []))⟩
  | .contentArray items =>
    let totalText := (items.filterMap (fun it =>
      match it with
      | .text s => some s
      | .nonText => none)).foldl (· ++ ·) []
    ⟨0, estimateTokens (some totalText)⟩
  | .messageText content =>
    let totalTokens := estimateTokens (some content)
    ⟨jsRound ((totalTokens : ℚ) * (2/10)), jsRound ((totalTokens : ℚ) * (8/10))⟩
  | .messageMulti items =>
    let totalTokens := items.foldl (fun acc it =>
      acc + match it with
        | .text s => estimateTokens (some s)
        | .imageUrl => 85
        | .audio => 100) 0
    ⟨jsRound ((totalTokens : ℚ) * (2/10)), jsRound ((totalTokens : ℚ) * (8/10))⟩
  | .genericShape stringified =>
    match stringified with
    | some s =>
      let estimatedTokens := estimateTokens (some (s.take 1000))
      ⟨jsRound ((estimatedTokens : ℚ) * (3/10)), jsRound ((estimatedTokens : ℚ) * (7/10))⟩
    | none => ⟨50, 50⟩

/-- An attributed call record (spec section 3, `AttributedCall`). -/
structure AttributedCall where
  model : String
  inputUnits : ℤ
  outputUnits : ℤ
  cost : ℚ
deriving DecidableEq

/-- The attribution pipeline of spec section 4.2: `null` for payloads the
interception layer skips, otherwise token extraction followed by cost
computation, as performed by the interception handlers (lines 528-531,
707-709, 743-745). -/
def attributeCall (p : RawPayload) (model : String) : Option AttributedCall :=
  match p with
  | .nonResponse => none
  | _ =>
    let t := extractTokensFromResponse p model
    some ⟨model, t.input, t.output, calculateCost model t.input t.output⟩

/-- An entry of `apiCallsLog` (pushed at lines 534-541, 712-718, 748-754). -/
structure CallEntry where
  timestamp : ℤ
  model : String
  cost : ℚ
  inputTokens : ℚ
  outputTokens : ℚ
deriving DecidableEq

/-- Controller state: the module-level mutable variables of the source
(`config.limit`, `config.mode`, `config.webhook`, `config.enabled`,
`totalCost`, `isKilled`, `apiCallsLog`; lines 41-57) for a local-mode
(no Redis) instance.  `mode` is a raw string because `setMode` (line 806)
accepts any value without validation.  `webhook` records whether a
notification target is configured. -/
structure GuardState where
  limit : ℚ
  mode : String
  webhook : Bool
  enabled : Bool
  totalCost : ℚ
  isKilled : Bool
  log : List CallEntry
deriving DecidableEq

/-- The structured data attached to the soft-mode error as
`error.agentGuardData` (lines 500-506); the source object has exactly
these five fields. -/
structure ThrowData where
  totalCost : ℚ
  limit : ℚ
  percentUsed : ℚ
  estimatedSavings : ℚ
  timestamp : ℤ
deriving DecidableEq

/-- The mode-specific action taken by a trip (lines 493-520, Node runtime:
`original.exit` present).  `softThrow` carries the error tag (the message
prefix `AGENTGUARD_LIMIT_EXCEEDED`) and the structured data;
`killExit` is the scheduled `process.exit` with its status code;
`unknownMode` is an unrecognized mode string falling through every branch. -/
inductive StopKind where
  | notifyContinue
  | softThrow (tag : String) (data : ThrowData)
  | killExit (code : Nat)
  | unknownMode
deriving DecidableEq

/-- Observable outcome of one evaluation: whether a (fresh) trip fired its
stop action, whether a webhook notification POST was dispatched, and which
mode action ran (`none` when no trip fired). -/
structure Outcome where
  tripped : Bool
  webhookSent : Bool
  action : Option StopKind
deriving DecidableEq

/-- Outcome of an evaluation that fired nothing. -/
def quietOutcome : Outcome := ⟨false, false, none⟩

/-- `emergencyStop(reason)` from lines 478-521: a no-op when `isKilled` is
already set; otherwise it sets `isKilled`, computes the estimated savings
`Math.max(0, limit * 5 - totalCost)`, dispatches the webhook notification
when one is configured (`sendWebhook`, lines 455-476), and runs the
mode-specific action.  The guard check and flag set are synchronous, hence
atomic under the single-threaded JavaScript scheduling model, so the model
treats the whole call as one step. -/
def emergencyStop (now : ℤ) (s : GuardState) : GuardState × Outcome :=
  if s.isKilled then (s, quietOutcome)
  else
    let s2 := { s with isKilled := true }
    let estimatedSavings := max 0 (s.limit * 5 - s.totalCost)
    let sent := s.webhook
    if s.mode = "notify" then (s2, ⟨true, sent, some .notifyContinue⟩)
    else if s.mode = "throw" then
      (s2, ⟨true, sent, some (.softThrow "AGENTGUARD_LIMIT_EXCEEDED"
        ⟨s.totalCost, s.limit, s.totalCost / s.limit * 100, estimatedSavings, now⟩)⟩)
    else if s.mode = "kill" then (s2, ⟨true, sent, some (.killExit 1)⟩)
    else (s2, ⟨true, sent, some .unknownMode⟩)

/-- The common evaluation body of the interception handlers
(`interceptConsole` lines 528-552, `handleAxiosResponse` lines 704-730,
`wrapFetch` lines 732-769) after attribution: add the cost to the running
total (`incrementBudget`, local mode, lines 290-291), append the log
entry, then compare `newTotal >= config.limit` and call `emergencyStop`
on a crossing.  None of the handlers consults `config.enabled`. -/
def processCost (now : ℤ) (s : GuardState) (model : String)
    (inTok outTok : ℚ) : GuardState × Outcome :=
  let cost := calculateCost model inTok outTok
  let newTotal := s.totalCost + cost
  let s1 := { s with
    totalCost := newTotal,
    log := s.log ++ [⟨now, model, cost, inTok, outTok⟩] }
  if newTotal ≥ s.limit then emergencyStop now s1 else (s1, quietOutcome)

/-- One full interception step on a raw payload: extraction, cost
computation, then evaluation, as in `handleAxiosResponse` lines 707-724. -/
def handleResponse (now : ℤ) (s : GuardState) (model : String)
    (p : RawPayload) : GuardState × Outcome :=
  let t := extractTokensFromResponse p model
  processCost now s model (t.input : ℚ) (t.output : ℚ)

/-- Run a sequence of attributed calls, counting how many stop actions
fired and how many webhook notifications were dispatched. -/
def runCalls (now : ℤ) (s : GuardState) :
    List (String × ℚ × ℚ) → GuardState × Nat × Nat
  | [] => (s, 0, 0)
  | c :: cs =>
    let r := processCost now s c.1 c.2.1 c.2.2
    let rest := runCalls now r.1 cs
    (rest.1,
     (if r.2.tripped then 1 else 0) + rest.2.1,
     (if r.2.webhookSent then 1 else 0) + rest.2.2)

/-- `reset()` from lines 815-826, local-mode part: zero `totalCost` and
clear `apiCallsLog` (the shared-mode branch additionally deletes the Redis
key).  The source does not touch `isKilled`. -/
def reset (s : GuardState) : GuardState :=
  { s with totalCost := 0, log := [] }

/-- `disable()` from lines 807-812: clear `config.enabled`, zero
`totalCost` and clear the log. -/
def disable (s : GuardState) : GuardState :=
  { s with enabled := false, totalCost := 0, log := [] }

/-- `setLimit(newLimit)` from line 805: a bare assignment to
`config.limit`; no comparison against the running total is performed. -/
def setLimit (s : GuardState) (newLimit : ℚ) : GuardState :=
  { s with limit := newLimit }

/-- `setMode(newMode)` from line 806: a bare assignment to `config.mode`,
accepting any string. -/
def setMode (s : GuardState) (newMode : String) : GuardState :=
  { s with mode := newMode }

/-- `getCost` for a local-mode controller (line 803, `redisClient` null). -/
def getCostLocal (s : GuardState) : ℚ := s.totalCost

/-- Options object passed to `init` (lines 772-773); absent fields fall
back to the defaults of lines 41-49.  The Redis address and webhook URL
are modelled by their presence. -/
structure InitOptions where
  limit : Option ℚ := none
  mode : Option String := none
  webhook : Option Bool := none
  enabled : Option Bool := none
  redis : Option Bool := none
  silent : Option Bool := none
  privacy : Option Bool := none
deriving DecidableEq

/-- Merged configuration after `config = { ...config, ...options }`
(line 773) over the defaults of lines 41-49. -/
structure Config where
  limit : ℚ
  mode : String
  webhook : Bool
  enabled : Bool
  redis : Bool
  silent : Bool
  privacy : Bool
deriving DecidableEq

/-- The spread-merge of `init`: option fields override the defaults
`{ limit: 10, webhook: null, enabled: true, silent: false, mode: 'throw',
redis: null, privacy: false }`. -/
def mergeConfig (opts : InitOptions) : Config :=
  { limit := opts.limit.getD 10
  , mode := opts.mode.getD "throw"
  , webhook := opts.webhook.getD false
  , enabled := opts.enabled.getD true
  , redis := opts.redis.getD false
  , silent := opts.silent.getD false
  , privacy := opts.privacy.getD false }

/-- Result of `init`: the controller handle closed over by the returned
operations (`undefined`, i.e. `none`, when `init` returns early), and
whether the interception hooks (`interceptConsole`, `interceptFetch`,
lines 796-797) were installed. -/
structure InitResult where
  handle : Option GuardState
  interceptionInstalled : Bool
deriving DecidableEq

/-- Fresh controller state for a merged configuration. -/
def initialState (cfg : Config) : GuardState :=
  { limit := cfg.limit, mode := cfg.mode, webhook := cfg.webhook,
    enabled := cfg.enabled, totalCost := 0, isKilled := false, log := [] }

/-- `init(options)` from lines 772-828: merge the options, and return
`undefined` without installing any interception when `config.enabled` is
false (line 775, before `initRedis`, `updatePrices`, `interceptConsole`
and `interceptFetch`); otherwise install interception and return the
handle exposing the runtime control surface. -/
def init (opts : InitOptions) : InitResult :=
  let cfg := mergeConfig opts
  if cfg.enabled then
    { handle := some (initialState cfg), interceptionInstalled := true }
  else
    { handle := none, interceptionInstalled := false }

/-- Shared-ledger (Redis-mode) state: whether a client handle is held
(`redisClient`, line 54), the external store's counter, and the local
fallback accumulator `totalCost`. -/
structure SharedLedger where
  redisClient : Bool
  redisTotal : ℚ
  totalCost : ℚ
deriving DecidableEq

/-- Result of one `incrementBudget` call: the new ledger state, the
returned total, and whether the degradation warning was logged. -/
structure IncrementResult where
  ledger : SharedLedger
  newTotal : ℚ
  warned : Bool
deriving DecidableEq

/-- `incrementBudget(cost)` from lines 276-292: with a Redis client, try
the atomic `incrByFloat` (outcome given by `redisOk`); on failure, log the
warning and fall back to the local accumulator for this call.  The source
keeps `redisClient` set in the failure branch, so later calls retry the
store. -/
def incrementBudget (s : SharedLedger) (redisOk : Bool) (cost : ℚ) :
    IncrementResult :=
  if s.redisClient then
    if redisOk then
      ⟨{ s with redisTotal := s.redisTotal + cost }, s.redisTotal + cost, false⟩
    else
      ⟨{ s with totalCost := s.totalCost + cost }, s.totalCost + cost, true⟩
  else
    ⟨{ s with totalCost := s.totalCost + cost }, s.totalCost + cost, false⟩

/-- `getCost` from line 803: `redisClient ? null : totalCost`. -/
def getCost (s : SharedLedger) : Option ℚ :=
  if s.redisClient then none else some s.totalCost

/-! Helper lemmas about the trip guard of `emergencyStop`. -/

lemma emergencyStop_of_killed (now : ℤ) (s : GuardState) (h : s.isKilled = true) :
    emergencyStop now s = (s, quietOutcome) := by
  simp [emergencyStop, h]

lemma emergencyStop_of_not_killed (now : ℤ) (s : GuardState) (h : s.isKilled = false) :
    ((emergencyStop now s).2).tripped = true ∧ ((emergencyStop now s).1).isKilled = true := by
  unfold emergencyStop
  rw [if_neg (by simp [h])]
  dsimp only
  split
  · exact ⟨rfl, rfl⟩
  · split
    · exact ⟨rfl, rfl⟩
    · split
      · exact ⟨rfl, rfl⟩
      · exact ⟨rfl, rfl⟩

lemma processCost_of_killed (now : ℤ) (s : GuardState) (m : String) (i o : ℚ)
    (h : s.isKilled = true) :
    (processCost now s m i o).2 = quietOutcome ∧
      ((processCost now s m i o).1).isKilled = true := by
  unfold processCost
  dsimp only
  split
  · rw [emergencyStop_of_killed _ _ (by simpa using h)]
    exact ⟨rfl, by simpa using h⟩
  · exact ⟨rfl, by simpa using h⟩

lemma processCost_of_not_killed (now : ℤ) (s : GuardState) (m : String) (i o : ℚ)
    (h : s.isKilled = false) :
    ((processCost now s m i o).2 = quietOutcome ∧
        ((processCost now s m i o).1).isKilled = false) ∨
      (((processCost now s m i o).2).tripped = true ∧
        ((processCost now s m i o).1).isKilled = true) := by
  unfold processCost
  dsimp only
  split
  · exact Or.inr (emergencyStop_of_not_killed _ _ (by simpa using h))
  · exact Or.inl ⟨rfl, by simpa using h⟩

lemma runCalls_of_killed (now : ℤ) (s : GuardState) (cs : List (String × ℚ × ℚ))
    (h : s.isKilled = true) :
    (runCalls now s cs).2.1 = 0 ∧ (runCalls now s cs).2.2 = 0 := by
  induction cs generalizing s with
  | nil => exact ⟨rfl, rfl⟩
  | cons c cs ih =>
    unfold runCalls
    obtain ⟨h1, h2⟩ := processCost_of_killed now s c.1 c.2.1 c.2.2 h
    obtain ⟨h3, h4⟩ := ih _ h2
    simp [h1, h3, h4, quietOutcome]

lemma runCalls_le_one (now : ℤ) (s : GuardState) (cs : List (String × ℚ × ℚ))
    (h : s.isKilled = false) :
    (runCalls now s cs).2.1 ≤ 1 ∧ (runCalls now s cs).2.2 ≤ 1 := by
  induction cs generalizing s with
  | nil => exact ⟨by simp [runCalls], by simp [runCalls]⟩
  | cons c cs ih =>
    unfold runCalls
    rcases processCost_of_not_killed now s c.1 c.2.1 c.2.2 h with ⟨hq, hk⟩ | ⟨ht, hk⟩
    · obtain ⟨h3, h4⟩ := ih _ hk
      simpa [hq, quietOutcome] using ⟨h3, h4⟩
    · obtain ⟨h3, h4⟩ := runCalls_of_killed now _ cs hk
      constructor
      · simp [h3]
        split <;> simp
      · simp [h4]
        split <;> simp

/-- Claim C1: the attribution pipeline is supposed to clamp negative unit
counts to 0 before multiplication, so that no attributed call carries a
negative cost.  The code does not clamp: `usage.prompt_tokens ||
usage.input_tokens || 0` (lines 299-300) lets any non-zero value through,
because a negative number is truthy in JavaScript, and `calculateCost`
multiplies it as-is.  At the failing input of the repository's own edge
case test (`usage: { prompt_tokens: -100, completion_tokens: -50 }`,
model `gpt-4`) the attributed cost is `-0.006`, strictly negative. -/
theorem c1_negative_usage_cost_negative :
    attributeCall (.withUsage ⟨some (-100), some (-50), none, none⟩) "gpt-4"
      = some ⟨"gpt-4", -100, -50, -3/500⟩ ∧ ((-3/500 : ℚ) < 0) := by
  constructor
  · norm_num [attributeCall, extractTokensFromResponse, orFalsy, calculateCost,
      jsLookup, findCosts, API_COSTS, List.find?]
  · norm_num

/-- Claim C4: in shared (Redis) mode, when the store fails at increment
time the code does return a valid local total including the cost and logs
a warning (lines 283-288), but it keeps `redisClient` set, so `getCost()`
(line 803, `redisClient ? null : totalCost`) still returns `null`
afterwards and the next increment retries the store — the ledger does not
switch to local mode for the remainder of the session.  Evaluated at the
failing input of the repository's Redis test (a failing increment of cost
0.05 on a fresh shared ledger). -/
theorem c4_getCost_null_after_redis_fallback :
    (incrementBudget ⟨true, 0, 0⟩ false (1/20)).newTotal = 1/20 ∧
    (incrementBudget ⟨true, 0, 0⟩ false (1/20)).warned = true ∧
    getCost (incrementBudget ⟨true, 0, 0⟩ false (1/20)).ledger = none ∧
    ((incrementBudget ⟨true, 0, 0⟩ false (1/20)).ledger).redisClient = true := by
  norm_num [incrementBudget, getCost]

/-- Controller state of the repository's disable test: `init({ limit:
0.0001, silent: true })`, local mode, nothing yet attributed. -/
def c5State : GuardState :=
  { limit := 1/10000, mode := "kill", webhook := false, enabled := true,
    totalCost := 0, isKilled := false, log := [] }

/-- Claim C5: `disable()` does clear the accumulated state (lines
807-812), but it does not stop future attribution or enforcement: none of
the interception handlers consults `config.enabled`, so a usage payload
observed after `disable()` (the repository's own test input,
`usage: { prompt_tokens: 1000, completion_tokens: 1000 }` on `gpt-4`)
still adds its cost 0.09 to the total, appends a log entry, and still
fires a trip. -/
theorem c5_attribution_continues_after_disable :
    (disable c5State).enabled = false ∧
    (disable c5State).totalCost = 0 ∧
    (disable c5State).log = [] ∧
    (handleResponse 0 (disable c5State) "gpt-4"
        (.withUsage ⟨some 1000, some 1000, none, none⟩)).1.totalCost = 9/100 ∧
    (handleResponse 0 (disable c5State) "gpt-4"
        (.withUsage ⟨some 1000, some 1000, none, none⟩)).1.log.length = 1 ∧
    ((handleResponse 0 (disable c5State) "gpt-4"
        (.withUsage ⟨some 1000, some 1000, none, none⟩)).2).tripped = true := by
  norm_num [c5State, disable, handleResponse, processCost, emergencyStop,
    extractTokensFromResponse, orFalsy, calculateCost, jsLookup, findCosts,
    API_COSTS, List.find?, quietOutcome]
  simp

/-- Claim C6 counterexample: the claim quantifies over every model
identifier, but for the identifier `toString` — a member name the table
inherits from `Object.prototype` — the bracket access returns a truthy
inherited function, the `|| API_COSTS['default']` fallback never engages,
`costs.input` is `undefined`, and the computed cost is `NaN`: not the
`"default"` entry's formula, and a failed lookup for all practical
purposes. -/
theorem c6_prototype_key_counterexample :
    calculateCostJs "toString" 1000 1000 = JsNum.nan ∧
    JsNum.nan
      ≠ JsNum.num ((1000 / 1000) * defaultEntry.input
          + (1000 / 1000) * defaultEntry.output) := by
  constructor
  · simp [calculateCostJs, propAccess, findCosts, API_COSTS, List.find?,
      OBJECT_PROTOTYPE_KEYS]
  · simp

/-- Claim C6 (amended): for every model identifier that is not one of the
member names inherited from `Object.prototype`, the computed cost equals
`(inputUnits/1000)*inputPrice + (outputUnits/1000)*outputPrice` with the
prices of the table entry for the model, the `"default"` entry standing in
whenever the identifier is unrecognized or empty; zero units yield cost 0,
and the unrecognized identifier `totally-unknown-model-xyz` is priced
exactly by the `"default"` entry's formula.  (For an inherited member name
the access returns the truthy inherited member, the default fallback does
not engage, and the cost is `NaN`, as the counterexample shows.) -/
theorem c6_cost_formula_amended (model : String) (i o : ℚ)
    (h : model ∉ OBJECT_PROTOTYPE_KEYS) :
    calculateCostJs model i o
      = .num ((i / 1000) * (lookupSpecEntry model).input
          + (o / 1000) * (lookupSpecEntry model).output)
    ∧ calculateCostJs model 0 0 = .num 0
    ∧ calculateCostJs "totally-unknown-model-xyz" i o
      = .num ((i / 1000) * defaultEntry.input + (o / 1000) * defaultEntry.output)
    ∧ calculateCostJs "" i o
      = .num ((i / 1000) * defaultEntry.input + (o / 1000) * defaultEntry.output) := by
  refine ⟨?_, ?_, ?_, ?_⟩
  · unfold calculateCostJs propAccess lookupSpecEntry
    cases hf : findCosts model with
    | some c => simp [hf]
    | none =>
      dsimp only
      rw [if_neg h]
      simp [findCosts, API_COSTS, List.find?, defaultEntry]
  · unfold calculateCostJs propAccess
    cases hf : findCosts model with
    | some c => simp [hf]
    | none =>
      dsimp only
      rw [if_neg h]
      simp
  · simp [calculateCostJs, propAccess, findCosts, API_COSTS, List.find?,
      OBJECT_PROTOTYPE_KEYS, defaultEntry]
  · simp [calculateCostJs, propAccess, findCosts, API_COSTS, List.find?,
      OBJECT_PROTOTYPE_KEYS, defaultEntry]

/-- Claim C6 witness: the amended cost formula evaluated at the ordinary
identifier `gpt-4` with 7 input and 3 output units. -/
theorem c6_cost_formula_amended_witness :
    calculateCostJs "gpt-4" 7 3
      = .num ((7 / 1000) * (lookupSpecEntry "gpt-4").input
          + (3 / 1000) * (lookupSpecEntry "gpt-4").output) ∧
    calculateCostJs "gpt-4" 0 0 = .num 0 ∧
    calculateCostJs "totally-unknown-model-xyz" 7 3
      = .num ((7 / 1000) * defaultEntry.input + (3 / 1000) * defaultEntry.output) ∧
    calculateCostJs "" 7 3
      = .num ((7 / 1000) * defaultEntry.input + (3 / 1000) * defaultEntry.output) :=
  c6_cost_formula_amended "gpt-4" 7 3 (by decide)

/-- A freshly initialized notify-mode controller with limit 1, used to
exhibit a complete trip-reset-trip run. -/
def c2Start : GuardState :=
  { limit := 1, mode := "notify", webhook := true, enabled := true,
    totalCost := 0, isKilled := false, log := [] }

/-- Claim C2 counterexample: a concrete run refuting the claim as stated.
From a fresh controller (limit 1), a call costing 3 trips the budget;
`reset()` then leaves `isKilled` still `true` (the source resets only
`totalCost` and the log, lines 815-826), so the claimed
`isTripped == false` after reset is false, and an identical crossing call
after the reset fires no fresh trip. -/
theorem c2_reset_counterexample :
    (((processCost 0 c2Start "gpt-4" 100000 0).2).tripped = true) ∧
    ((reset (processCost 0 c2Start "gpt-4" 100000 0).1).isKilled = true) ∧
    (((processCost 0 (reset (processCost 0 c2Start "gpt-4" 100000 0).1)
        "gpt-4" 100000 0).2).tripped = false) := by
  norm_num [c2Start, processCost, emergencyStop, reset, calculateCost,
    jsLookup, findCosts, API_COSTS, List.find?, quietOutcome]

/-- Claim C2 (amended): `reset()` zeroes the running total and clears the
call log, but leaves the tripped flag (`isKilled`) unchanged; in
particular, after a trip, a crossing evaluation following a `reset()`
fires no fresh trip and sends no notification. -/
theorem c2_reset_amended (s : GuardState) :
    (reset s).totalCost = 0 ∧ (reset s).log = [] ∧
    (reset s).isKilled = s.isKilled ∧
    (∀ (now : ℤ) (m : String) (i o : ℚ), s.isKilled = true →
      (processCost now (reset s) m i o).2 = quietOutcome) := by
  refine ⟨rfl, rfl, rfl, ?_⟩
  intro now m i o hk
  exact (processCost_of_killed now (reset s) m i o (by simpa [reset] using hk)).1

/-- A controller that has already tripped (`isKilled = true`). -/
def trippedState : GuardState :=
  { limit := 10, mode := "throw", webhook := true, enabled := true,
    totalCost := 12, isKilled := true, log := [] }

/-- Claim C2 witness: the amended reset property evaluated on a concrete
tripped controller. -/
theorem c2_reset_amended_witness :
    (processCost 0 (reset trippedState) "gpt-4" 100000 0).2 = quietOutcome :=
  (c2_reset_amended trippedState).2.2.2 0 "gpt-4" 100000 0 rfl

/-- Claim C3: within one session the stop action and the webhook
notification fire at most once.  Over any sequence of attributed calls
(the sequential interleavings of the single-threaded host, in which each
`emergencyStop` guard-check-and-set is one atomic step), a session started
untripped fires at most one stop action and at most one notification, and
a tripped session fires none at all — repeated crossings, however many,
never re-fire. -/
theorem c3_trip_fires_at_most_once (now : ℤ) (s : GuardState)
    (cs : List (String × ℚ × ℚ)) :
    (s.isKilled = false →
      (runCalls now s cs).2.1 ≤ 1 ∧ (runCalls now s cs).2.2 ≤ 1) ∧
    (s.isKilled = true →
      (runCalls now s cs).2.1 = 0 ∧ (runCalls now s cs).2.2 = 0) :=
  ⟨runCalls_le_one now s cs, runCalls_of_killed now s cs⟩

/-- Claim C3 witness: the at-most-once bound evaluated on a fresh
controller fed two limit-crossing calls, and the none-at-all bound on an
already-tripped controller. -/
theorem c3_trip_fires_at_most_once_witness :
    ((runCalls 0 c2Start [("gpt-4", 100000, 0), ("gpt-4", 100000, 0)]).2.1 ≤ 1 ∧
      (runCalls 0 c2Start [("gpt-4", 100000, 0), ("gpt-4", 100000, 0)]).2.2 ≤ 1) ∧
    ((runCalls 0 trippedState [("gpt-4", 100000, 0)]).2.1 = 0 ∧
      (runCalls 0 trippedState [("gpt-4", 100000, 0)]).2.2 = 0) :=
  ⟨(c3_trip_fires_at_most_once 0 c2Start
      [("gpt-4", 100000, 0), ("gpt-4", 100000, 0)]).1 rfl,
   (c3_trip_fires_at_most_once 0 trippedState [("gpt-4", 100000, 0)]).2 rfl⟩

/-- Claim C7: the fallback token estimator is total (a total function in
this embedding, mirroring that the source path performs only a split, a
length and `Math.ceil`), yields 0 for undefined or empty text, computes
exactly `ceil(wordCount * 1.3 + charCount * 0.25)` on non-empty text, and
is monotonically non-decreasing in text length at fixed word density
(jointly monotone in word count and character count, which covers growing
text of any fixed density). -/
theorem c7_fallback_estimator :
    estimateTokens none = 0 ∧
    estimateTokens (some []) = 0 ∧
    (∀ s : List Char, s ≠ [] →
      estimateTokens (some s)
        = ⌈(wordCount s : ℚ) * (13/10) + (s.length : ℚ) * (1/4)⌉) ∧
    (∀ s t : List Char, wordCount s ≤ wordCount t → s.length ≤ t.length →
      estimateTokens (some s) ≤ estimateTokens (some t)) := by
  refine ⟨rfl, by simp [estimateTokens], ?_, ?_⟩
  · intro s hs
    simp [estimateTokens, hs]
  · intro s t hw hc
    by_cases hs : s = []
    · subst hs
      simp only [estimateTokens, if_pos rfl]
      by_cases ht : t = []
      · simp [ht]
      · simp only [if_neg ht]
        apply Int.ceil_nonneg
        positivity
    · have ht : t ≠ [] := by
        intro h
        subst h
        simp only [List.length_nil, Nat.le_zero, List.length_eq_zero] at hc
        exact hs hc
      simp only [estimateTokens, if_neg hs, if_neg ht]
      apply Int.ceil_le_ceil
      have hw2 : (wordCount s : ℚ) ≤ (wordCount t : ℚ) := by exact_mod_cast hw
      have hc2 : (s.length : ℚ) ≤ (t.length : ℚ) := by exact_mod_cast hc
      nlinarith

/-- Claim C7 witness: the exact formula and the monotone bound evaluated
at the concrete texts "hi" and "hi ho". -/
theorem c7_fallback_estimator_witness :
    estimateTokens (some ['h', 'i'])
      = ⌈(wordCount ['h', 'i'] : ℚ) * (13/10)
          + ((['h', 'i'] : List Char).length : ℚ) * (1/4)⌉ ∧
    estimateTokens (some ['h', 'i'])
      ≤ estimateTokens (some ['h', 'i', ' ', 'h', 'o']) :=
  ⟨c7_fallback_estimator.2.2.1 _ (by decide),
   c7_fallback_estimator.2.2.2 _ _ (by decide) (by decide)⟩

/-- Claim C8: in soft mode (`mode: 'throw'`), a budget trip raises an
error carrying the distinguishing tag `AGENTGUARD_LIMIT_EXCEEDED` and the
structured `agentGuardData` whose fields are exactly `totalCost`, `limit`,
`percentUsed`, `estimatedSavings` and `timestamp` (the `ThrowData`
embedding has exactly these five fields, mirroring lines 500-506), with
the documented values; no process exit is scheduled, so the caller can
catch the error and react. -/
theorem c8_soft_mode_throws_structured_error (now : ℤ) (s : GuardState)
    (hk : s.isKilled = false) (hm : s.mode = "throw") :
    (emergencyStop now s).2.action
      = some (.softThrow "AGENTGUARD_LIMIT_EXCEEDED"
          ⟨s.totalCost, s.limit, s.totalCost / s.limit * 100,
            max 0 (s.limit * 5 - s.totalCost), now⟩) ∧
    (emergencyStop now s).2.tripped = true ∧
    (∀ code : Nat, (emergencyStop now s).2.action ≠ some (.killExit code)) ∧
    (emergencyStop now s).1.isKilled = true := by
  unfold emergencyStop
  rw [if_neg (by simp [hk])]
  simp [hm]

/-- A tripping throw-mode controller at total 12 of limit 10, for the C8
witness. -/
def c8State : GuardState :=
  { limit := 10, mode := "throw", webhook := true, enabled := true,
    totalCost := 12, isKilled := false, log := [] }

/-- Claim C8 witness: the soft-mode trip outcome evaluated at a concrete
crossing controller. -/
theorem c8_soft_mode_witness :
    (emergencyStop 5 c8State).2.action
      = some (.softThrow "AGENTGUARD_LIMIT_EXCEEDED"
          ⟨c8State.totalCost, c8State.limit,
            c8State.totalCost / c8State.limit * 100,
            max 0 (c8State.limit * 5 - c8State.totalCost), 5⟩) ∧
    (emergencyStop 5 c8State).2.tripped = true ∧
    (∀ code : Nat, (emergencyStop 5 c8State).2.action ≠ some (.killExit code)) ∧
    (emergencyStop 5 c8State).1.isKilled = true :=
  c8_soft_mode_throws_structured_error 5 c8State rfl rfl

/-- Claim C9: `init` called with `enabled: false` returns early
(line 775), handing back no controller handle — so none of `getCost`,
`getLimit`, `setLimit`, `setMode`, `getLogs`, `reset`, `disable` or
`updatePrices` is available on the result — and installs no console or
fetch interception. -/
theorem c9_init_disabled_returns_nothing (opts : InitOptions)
    (h : opts.enabled = some false) :
    (init opts).handle = none ∧ (init opts).interceptionInstalled = false := by
  simp [init, mergeConfig, h]

/-- Claim C9 witness: `init` evaluated at the concrete options object
`{ enabled: false }`. -/
theorem c9_init_disabled_witness :
    (init { enabled := some false }).handle = none ∧
    (init { enabled := some false }).interceptionInstalled = false :=
  c9_init_disabled_returns_nothing { enabled := some false } rfl

/-- Claim C10: `setLimit` and `setMode` are bare assignments accepting any
value without validation: they leave the running total, the log and the
tripped flag untouched and fire nothing, even when the new limit is at or
below the current total; the comparison against the limit is evaluated
only at increment time, where the next attributed cost whose resulting
total reaches the then-configured limit does fire the trip. -/
theorem c10_trip_only_at_increment (s : GuardState) (n : ℚ) (mo : String) :
    ((setLimit s n).isKilled = s.isKilled ∧
      (setLimit s n).totalCost = s.totalCost ∧
      (setLimit s n).log = s.log ∧ (setLimit s n).limit = n) ∧
    ((setMode s mo).isKilled = s.isKilled ∧
      (setMode s mo).totalCost = s.totalCost ∧ (setMode s mo).mode = mo) ∧
    (∀ (now : ℤ) (m : String) (i o : ℚ), s.isKilled = false →
      s.totalCost + calculateCost m i o ≥ n →
      ((processCost now (setLimit s n) m i o).2).tripped = true) := by
  refine ⟨⟨rfl, rfl, rfl, rfl⟩, ⟨rfl, rfl, rfl⟩, ?_⟩
  intro now m i o hk hcross
  unfold processCost
  dsimp only
  rw [if_pos (by simpa [setLimit] using hcross)]
  exact (emergencyStop_of_not_killed now _ (by simpa [setLimit] using hk)).1

/-- A fresh controller at total 0 for the C10 witness. -/
def c10State : GuardState :=
  { limit := 10, mode := "throw", webhook := false, enabled := true,
    totalCost := 0, isKilled := false, log := [] }

/-- Claim C10 witness: lowering the limit to the current total (0) fires
nothing by itself, and the next increment (cost 0, total 0 >= limit 0)
does fire the trip. -/
theorem c10_trip_only_at_increment_witness :
    (setLimit c10State 0).isKilled = c10State.isKilled ∧
    ((processCost 0 (setLimit c10State 0) "default" 0 0).2).tripped = true :=
  ⟨(c10_trip_only_at_increment c10State 0 "throw").1.1,
   (c10_trip_only_at_increment c10State 0 "throw").2.2 0 "default" 0 0 rfl
     (by simp [c10State, calculateCost])⟩

end AgentGuard
